import Mathlib

/-!
Verification of the intelligence-gathering core of `server.js` (class
`AIIntelligenceService`): the in-memory cache, the two source adapters
(news and academic), the relevance scoring, and the aggregating
`searchWebSources` pipeline.

Modelling conventions (a shallow embedding of the JavaScript source):

* JavaScript strings are Lean `String`s; `String.substring` counts UTF-16
  code units while `List.take` on `String.data` counts characters — the two
  agree on ASCII and on all concrete inputs used below.
* `toLowerCase` is modelled with `Char.toLower` (exact on ASCII).
* JSON-nullable fields (`article.title`, `article.description`,
  `article.url`, ...) are `Option String`; the code never validates them.
  JavaScript coerces `null` to the string "null" when concatenating, which
  `jsString` models.
* Clock reads (`Date.now()`, `new Date().toISOString()`) are modelled by an
  `Int` parameter `now` (milliseconds); `jsISOString` stands for
  `Date.prototype.toISOString`, an injective rendering of the clock value.
* Outbound HTTP calls are modelled by passing the (already decoded)
  response as an `Option` parameter: `none` is a network/HTTP/shape failure
  that makes the surrounding `await` throw, `some` is a decoded body.
* A JavaScript function that can throw is modelled as returning `Option`
  (`none` = an exception propagates); `try/catch` is a `match` on it.
* `new RegExp(word, 'g')` together with `String.prototype.match` is
  modelled on the fragment of regular expressions the proofs touch:
  patterns made of ordinary characters and the metacharacter '.'
  (which matches any character except a line terminator). Any other
  metacharacter is outside the modelled fragment and mapped to a compile
  failure; every theorem below either quantifies only over
  metacharacter-free patterns, where the model is exact, or evaluates the
  model at a pattern such as "(" where `new RegExp` genuinely throws a
  SyntaxError (unterminated group). Counting with the 'g' flag is
  non-overlapping left-to-right matching; an empty match advances the
  scan by one position, so the empty pattern matches `length + 1` times.
-/

namespace AINews

/-! ## JavaScript string helpers -/

/-- Lowercasing of `String.data`, modelling `String.prototype.toLowerCase`
(exact on ASCII). -/
def toLowerStr (s : List Char) : List Char := s.map Char.toLower

/-- Model of `String.prototype.split(' ')`: split on every single space
character, keeping empty fragments; the result is never the empty list
(splitting the empty string gives `[[]]`, exactly as in JavaScript). -/
def splitOnSpace : List Char → List (List Char)
  | [] => [[]]
  | c :: cs =>
    match splitOnSpace cs with
    | [] => [[]]
    | t :: ts => if c = ' ' then [] :: t :: ts else (c :: t) :: ts

/-- JavaScript string coercion of a nullable string: `null` prints as
"null" (as in `article.title + ' ' + article.description`). -/
def jsString : Option String → String
  | none => "null"
  | some s => s

/-- Stand-in for `Date.prototype.toISOString` applied to a millisecond
clock value: an injective rendering of the clock. -/
def jsISOString (t : Int) : String := "iso@" ++ toString t

/-- Model of `s.substring(0, n)`: the first `min n (length s)` characters. -/
def jsSubstring (s : String) (n : Nat) : String := String.mk (s.data.take n)

/-- Model of `String.prototype.trim`: drop whitespace from both ends
(exact on ASCII whitespace). -/
def jsTrim (s : String) : String :=
  String.mk (((s.data.dropWhile Char.isWhitespace).reverse.dropWhile Char.isWhitespace).reverse)

/-- Sequencing of an Option-returning map over a list: `none` as soon as
one element fails, modelling an exception propagating out of a JavaScript
`map`/`forEach` loop. -/
def traverseOption (f : α → Option β) : List α → Option (List β)
  | [] => some []
  | a :: l =>
    match f a with
    | none => none
    | some b => (traverseOption f l).map (fun bs => b :: bs)

/-- Model of `String.prototype.includes`: substring containment. -/
def jsIncludes (s pat : String) : Bool := decide (pat.data <:+: s.data)

/-! ## The regular-expression fragment used by `calculateRelevance` -/

/-- One token of a compiled pattern in the modelled fragment of JavaScript
regular expressions: a literal character or the '.' wildcard. -/
inductive RTok where
  | lit (c : Char)
  | dot
deriving DecidableEq, Repr

/-- Characters that carry meaning inside a JavaScript regular expression
(besides '.'). A pattern containing one is outside the modelled fragment
and is mapped to a compile failure; the concrete pattern the proofs
evaluate there, "(", is a genuine SyntaxError (unterminated group). -/
def regexMetaChars : List Char :=
  ['\\', '^', '$', '|', '?', '*', '+', '(', ')', '[', ']', '\x7b', '\x7d']

/-- A character that a regular expression treats as itself. -/
def isLiteralChar (c : Char) : Bool := !(c = '.' || regexMetaChars.contains c)

/-- Compile one character of the pattern. -/
def parseTok (c : Char) : Option RTok :=
  if c = '.' then some RTok.dot
  else if regexMetaChars.contains c then none
  else some (RTok.lit c)

/-- Compile a pattern (the model of `new RegExp(word, 'g')`); `none` models
the constructor throwing a SyntaxError. -/
def parsePattern (w : List Char) : Option (List RTok) := traverseOption parseTok w

/-- Line terminators, which '.' does not match in JavaScript. -/
def lineTerminator (c : Char) : Bool :=
  c = '\n' || c = '\r' || c = '\u2028' || c = '\u2029'

/-- Does one pattern token match one character. -/
def tokMatches : RTok → Char → Bool
  | RTok.lit a, c => a = c
  | RTok.dot, c => !lineTerminator c

/-- Does the pattern match a prefix of `s` (every token consumes exactly
one character in the modelled fragment). -/
def patMatchesAt : List RTok → List Char → Bool
  | [], _ => true
  | _ :: _, [] => false
  | t :: ps, c :: cs => tokMatches t c && patMatchesAt ps cs

/-- Left-to-right scan counting non-overlapping matches, as
`String.prototype.match` with the 'g' flag does: after a match of length
`L` at a position the scan resumes `L` characters later (one character
later for an empty match). `skip` is the number of positions still to be
jumped over from a previous match. The match of the empty pattern at the
very end of the string is added by `countMatches`. -/
def countMatchesAux (pat : List RTok) : List Char → Nat → Nat
  | [], _ => 0
  | _ :: cs, Nat.succ k => countMatchesAux pat cs k
  | c :: cs, 0 =>
    if patMatchesAt pat (c :: cs) then
      if pat.isEmpty then 1 + countMatchesAux pat cs 0
      else 1 + countMatchesAux pat cs (pat.length - 1)
    else countMatchesAux pat cs 0

/-- Number of matches `(textLower.match(new RegExp(word, 'g')) || []).length`
reports for a compiled pattern: the scan over the string, plus the final
position match when the pattern is empty. -/
def countMatches (pat : List RTok) (s : List Char) : Nat :=
  countMatchesAux pat s 0 + (if pat.isEmpty then 1 else 0)

/-- Non-overlapping count of literal occurrences of `pat` in `s`, scanning
left to right — the substring-counting notion the specification describes.
Same scan structure as `countMatchesAux`, with plain prefix comparison. -/
def literalCountAux (pat : List Char) : List Char → Nat → Nat
  | [], _ => 0
  | _ :: cs, Nat.succ k => literalCountAux pat cs k
  | c :: cs, 0 =>
    if pat.isPrefixOf (c :: cs) then
      if pat.isEmpty then 1 + literalCountAux pat cs 0
      else 1 + literalCountAux pat cs (pat.length - 1)
    else literalCountAux pat cs 0

/-- Literal occurrence count, including the end-of-string position for the
empty pattern. -/
def literalCount (pat : List Char) (s : List Char) : Nat :=
  literalCountAux pat s 0 + (if pat.isEmpty then 1 else 0)

/-! ## calculateRelevance (server.js lines 266-277)

```js
calculateRelevance(text, query) {
  const queryWords = query.toLowerCase().split(' ');
  const textLower = text.toLowerCase();
  let score = 0;
  queryWords.forEach(word => {
    const matches = (textLower.match(new RegExp(word, 'g')) || []).length;
    score += matches;
  });
  return Math.min(score / queryWords.length, 1);
}
```

The score is an exact rational here; the JavaScript double rounding of
`score / queryWords.length` cannot move a value across 0 or 1, and the
concrete evaluations below use values the double represents exactly.
`none` models an exception escaping (a token failing to compile). -/

def calculateRelevance (text query : String) : Option ℚ :=
  let queryWords := splitOnSpace (toLowerStr query.data)
  let textLower := toLowerStr text.data
  (traverseOption (fun w => (parsePattern w).map (fun p => countMatches p textLower)) queryWords).map
    (fun counts => min ((counts.sum : ℚ) / (queryWords.length : ℚ)) 1)

/-! ## Data model -/

/-- One article of the news API response body (`response.data.articles`):
JSON fields, each of which may be `null`; `sourceName` stands for
`article.source.name`. -/
structure Article where
  title : Option String
  description : Option String
  url : Option String
  publishedAt : Option String
  sourceName : Option String
deriving DecidableEq, Repr, Inhabited

/-- One `entry` element of the academic (arXiv) XML response, as read by
the cheerio `.text()` calls, which always return a plain string. -/
structure ArxivEntry where
  title : String
  summary : String
  published : String
  id : String
deriving DecidableEq, Repr, Inhabited

/-- A normalized search hit as the adapters build it. The news path copies
JSON fields verbatim, so the nullable ones stay `Option String`; `type`
and `relevanceScore` are always set by the adapters. -/
structure SourceRecord where
  title : Option String
  description : Option String
  url : Option String
  publishedAt : Option String
  source : Option String
  type : String
  relevanceScore : ℚ
deriving DecidableEq, Repr, Inhabited

/-- The `dataSource` block of the aggregator payload (server.js lines
113-122). -/
structure DataSourceInfo where
  isLive : Bool
  hasNewsAPI : Bool
  news : Nat
  academic : Nat
  mock : Nat
  status : String
deriving DecidableEq, Repr, Inhabited

/-- The aggregator payload `data` (server.js lines 107-123). -/
structure SearchData where
  results : List SourceRecord
  totalFound : Nat
  searchQuery : String
  timeFrame : String
  timestamp : String
  dataSource : DataSourceInfo
deriving DecidableEq, Repr, Inhabited

/-! ## News adapter (server.js lines 133-225) -/

/-- The fixed fallback sequence `getMockNewsData(query)` (lines 166-225),
verbatim from the source; template literals become concatenations and the
`new Date(...)` reads are rendered from the `now` parameter. -/
def getMockNewsData (now : Int) (query : String) : List SourceRecord :=
  [ { title := some ("Breakthrough " ++ query ++ " capabilities revolutionize enterprise operations")
      description := some ("Revolutionary developments in " ++ query ++ " technology demonstrate unprecedented capabilities for automating complex business processes, with Fortune 500 companies reporting 40% efficiency improvements and significant cost reductions across multiple operational domains.")
      url := some "https://example.com/news/1"
      publishedAt := some (jsISOString now)
      source := some "Enterprise Tech Daily"
      type := "news"
      relevanceScore := 0.95 },
    { title := some (query ++ " market dynamics: Investment surge and competitive repositioning")
      description := some "Comprehensive market analysis reveals $25B in new investments driving rapid innovation cycles. Leading technology companies announcing strategic partnerships while startups focus on specialized solutions targeting specific industry verticals."
      url := some "https://example.com/news/2"
      publishedAt := some (jsISOString (now - 12 * 60 * 60 * 1000))
      source := some "Market Intelligence Report"
      type := "industry"
      relevanceScore := 0.92 },
    { title := some ("Regulatory frameworks evolve to address " ++ query ++ " implementation challenges")
      description := some "International regulatory bodies collaborate on comprehensive guidelines addressing privacy, security, and ethical considerations. New compliance frameworks provide clarity for enterprise adoption while ensuring responsible development practices."
      url := some "https://example.com/news/3"
      publishedAt := some (jsISOString (now - 18 * 60 * 60 * 1000))
      source := some "Regulatory Affairs Quarterly"
      type := "news"
      relevanceScore := 0.89 },
    { title := some ("Technical architecture innovations enable scalable " ++ query ++ " deployment")
      description := some ("Advanced engineering approaches utilizing microservices, containerization, and edge computing architectures enable organizations to deploy " ++ query ++ " solutions at enterprise scale with improved performance and reliability.")
      url := some "https://example.com/news/4"
      publishedAt := some (jsISOString (now - 24 * 60 * 60 * 1000))
      source := some "Technical Architecture Review"
      type := "industry"
      relevanceScore := 0.86 },
    { title := some ("Global adoption patterns reveal regional " ++ query ++ " implementation strategies")
      description := some ("Cross-regional analysis demonstrates varying approaches to " ++ query ++ " adoption, with North American companies emphasizing rapid deployment, European organizations prioritizing compliance, and Asian markets focusing on integration with existing systems.")
      url := some "https://example.com/news/5"
      publishedAt := some (jsISOString (now - 36 * 60 * 60 * 1000))
      source := some "Global Technology Trends"
      type := "news"
      relevanceScore := 0.84 },
    { title := some ("Industry transformation accelerates through " ++ query ++ " integration")
      description := some "Sector-specific implementations demonstrate transformative potential across healthcare, finance, manufacturing, and retail industries. Case studies reveal measurable improvements in operational efficiency, customer satisfaction, and competitive positioning."
      url := some "https://example.com/news/6"
      publishedAt := some (jsISOString (now - 48 * 60 * 60 * 1000))
      source := some "Industry Transformation Weekly"
      type := "industry"
      relevanceScore := 0.88 } ]

/-- Mapping of one article (lines 151-159); `none` when
`calculateRelevance` throws inside the `map` callback. -/
def mkNewsRecord (query : String) (a : Article) : Option SourceRecord :=
  (calculateRelevance (jsString a.title ++ " " ++ jsString a.description) query).map
    (fun score =>
      { title := a.title
        description := a.description
        url := a.url
        publishedAt := a.publishedAt
        source := a.sourceName
        type := "news"
        relevanceScore := score })

/-- The body of the `try` block of `searchNewsAPI` (lines 138-159): await
the HTTP response (`none` = the call threw) and map every article; `none`
when anything inside throws. The `timeFrame` argument of the source only
shapes the outbound request, which is represented by the response
parameter, so it does not appear here. -/
def newsApiBody (query : String) (apiArticles : Option (List Article)) :
    Option (List SourceRecord) :=
  apiArticles.bind (fun arts => traverseOption (mkNewsRecord query) arts)

/-- searchNewsAPI (lines 133-164): without a credential return the mock
data at once; with one, run the body and fall back to the mock data on any
caught failure. Total: the adapter never raises. -/
def searchNewsAPI (hasKey : Bool) (now : Int) (query : String)
    (apiArticles : Option (List Article)) : List SourceRecord :=
  if !hasKey then getMockNewsData now query
  else
    match newsApiBody query apiArticles with
    | some recs => recs
    | none => getMockNewsData now query

/-! ## Academic adapter (server.js lines 227-264) -/

/-- Mapping of one parsed entry (lines 242-257): the four `.text().trim()`
reads, the truncated description `summary.substring(0, 200) + '...'`, and
the relevance score (`none` when `calculateRelevance` throws mid-loop). -/
def mkArxivRecord (query : String) (e : ArxivEntry) : Option SourceRecord :=
  (calculateRelevance (jsTrim e.title ++ " " ++ jsTrim e.summary) query).map
    (fun score =>
      { title := some (jsTrim e.title)
        description := some (jsSubstring (jsTrim e.summary) 200 ++ "...")
        url := some (jsTrim e.id)
        publishedAt := some (jsTrim e.published)
        source := some "arXiv"
        type := "academic"
        relevanceScore := score })

/-- The body of the `try` block of `searchArxiv` (lines 228-259). -/
def arxivBody (query : String) (apiEntries : Option (List ArxivEntry)) :
    Option (List SourceRecord) :=
  apiEntries.bind (fun es => traverseOption (mkArxivRecord query) es)

/-- searchArxiv (lines 227-264): any caught failure yields the empty
sequence. Total: the adapter never raises. -/
def searchArxiv (query : String) (apiEntries : Option (List ArxivEntry)) :
    List SourceRecord :=
  (arxivBody query apiEntries).getD []

/-! ## Cache (server.js lines 77-88 and 125) -/

/-- The cache TTL `this.cacheExpiry = 30 * 60 * 1000` (milliseconds). -/
def cacheExpiry : Int := 30 * 60 * 1000

/-- One cache value `{ data, timestamp: Date.now() }` (line 125). -/
structure CacheEntry where
  data : SearchData
  timestamp : Int
deriving DecidableEq, Repr, Inhabited

/-- The `Map` state: insertion-ordered association list. -/
def Cache := List (String × CacheEntry)

/-- Model of `Map.prototype.get`. -/
def mapGet (m : List (String × CacheEntry)) (k : String) : Option CacheEntry :=
  match m with
  | [] => none
  | (k₁, v) :: rest => if k₁ = k then some v else mapGet rest k

/-- Model of `Map.prototype.set`: update in place or append. -/
def mapSet (m : List (String × CacheEntry)) (k : String) (v : CacheEntry) :
    List (String × CacheEntry) :=
  match m with
  | [] => [(k, v)]
  | (k₁, v₁) :: rest =>
    if k₁ = k then (k, v) :: rest else (k₁, v₁) :: mapSet rest k v

/-- The cache key `` `search_${query}_${timeFrame}` `` (line 83). -/
def cacheKey (query timeFrame : String) : String :=
  "search_" ++ query ++ "_" ++ timeFrame

/-- The read side of the cache (lines 84-88): the entry is returned only
when present and `now - timestamp < cacheExpiry`; otherwise the lookup
behaves as absent. -/
def cacheGet (cache : List (String × CacheEntry)) (query timeFrame : String)
    (now : Int) : Option SearchData :=
  match mapGet cache (cacheKey query timeFrame) with
  | some e => if now - e.timestamp < cacheExpiry then some e.data else none
  | none => none

/-- The write side of the cache (line 125). -/
def cachePut (cache : List (String × CacheEntry)) (query timeFrame : String)
    (data : SearchData) (now : Int) : List (String × CacheEntry) :=
  mapSet cache (cacheKey query timeFrame) ⟨data, now⟩

/-! ## Aggregator (server.js lines 82-131) -/

/-- The short-circuiting `newsResults.some(r => !r.url.includes('example.com'))`
of line 105: reading `includes` of a `null` url is a TypeError (`none`). -/
def newsSomeLive : List SourceRecord → Option Bool
  | [] => some false
  | r :: rs =>
    match r.url with
    | none => none
    | some u => if !jsIncludes u "example.com" then some true else newsSomeLive rs

/-- The guarded mock counter of line 119:
`r.url && r.url.includes('example.com')` (a `null` url is falsy). -/
def isMockRecord (r : SourceRecord) : Bool :=
  match r.url with
  | some u => jsIncludes u "example.com"
  | none => false

/-- The `try` block of `searchWebSources` after both adapter promises have
settled (lines 96-126): keep the fulfilled outcomes, flatten, drop falsy
entries (`filter(Boolean)` — the identity here, since adapter arrays hold
no null elements), compute the `dataSource` block and build the payload.
`none` models the TypeError of line 105 escaping to the catch of line 127,
which rethrows "Search service temporarily unavailable". -/
def searchCompute (query timeFrame : String) (now : Int) (hasKey : Bool)
    (settledNews settledAcad : Except Unit (List SourceRecord)) :
    Option SearchData :=
  let processedResults :=
    (([settledNews, settledAcad].filterMap Except.toOption).flatten)
  let newsResults := processedResults.filter (fun r => r.type == "news")
  let isLiveOpt :=
    if hasKey then
      if 0 < newsResults.length then newsSomeLive newsResults else some false
    else some false
  isLiveOpt.map (fun isLive =>
    { results := processedResults
      totalFound := processedResults.length
      searchQuery := query
      timeFrame := timeFrame
      timestamp := jsISOString now
      dataSource :=
        { isLive := isLive
          hasNewsAPI := hasKey
          news := newsResults.length
          academic := (processedResults.filter (fun r => r.type == "academic")).length
          mock := (processedResults.filter isMockRecord).length
          status := if isLive then "LIVE_DATA" else "MOCK_DATA_DEMO" } })

/-- searchWebSources (lines 82-131). Returns the payload (`none` = the
generic error is thrown), the cache state afterwards, and whether the
adapter fan-out ran (false = pure cache hit, no outbound calls). The two
clock reads of lines 86 and 125 happen in one synchronous call, modelled
by the single `now`. In the source the adapters never reject, so their
settled outcomes are both fulfilled here; `searchCompute` also accepts a
rejected outcome for the defensive `allSettled` filtering of lines 96-97. -/
def searchWebSources (cache : List (String × CacheEntry)) (now : Int)
    (query timeFrame : String) (hasKey : Bool)
    (newsApi : Option (List Article)) (acadApi : Option (List ArxivEntry)) :
    Option SearchData × List (String × CacheEntry) × Bool :=
  match cacheGet cache query timeFrame now with
  | some data => (some data, cache, false)
  | none =>
    match searchCompute query timeFrame now hasKey
        (Except.ok (searchNewsAPI hasKey now query newsApi))
        (Except.ok (searchArxiv query acadApi)) with
    | some data => (some data, cachePut cache query timeFrame data now, true)
    | none => (none, cache, true)

end AINews

namespace AINews

/-! ## Concrete values used by the witnesses -/

/-- The payload of a credential-less `searchWebSources("ai", "week")` run
at clock 0 on an empty cache. -/
def demoData : SearchData :=
  ((searchWebSources [] 0 "ai" "week" false none none).1).getD default

/-- A news-API article whose fields are all present. -/
def c9article : Article :=
  ⟨some "AI rocks", some "desc", some "https://x.com/a", some "2024", some "X"⟩

/-- The payload built from that single live article and a failed academic
call. -/
def c9data : SearchData :=
  (searchCompute "ai" "week" 0 true
    (Except.ok (searchNewsAPI true 0 "ai" (some [c9article])))
    (Except.ok (searchArxiv "ai" none))).getD default

/-- A cache holding one entry written at clock 0. -/
def staleCache : List (String × CacheEntry) :=
  [(cacheKey "a" "b", ⟨default, 0⟩)]

/-- A parsed academic entry with whitespace padding and a short summary. -/
def c10entry : ArxivEntry :=
  ⟨" T ", " hello world ", "2024-01-01", "http://arxiv.org/abs/1"⟩

/-- The record the academic adapter builds from that entry. -/
def c10rec : SourceRecord := (mkArxivRecord "ai" c10entry).getD default

/-- The per-record facet of the aggregator invariant that survives on the
code: a type tag from the three the adapters emit, and a relevance score
within bounds. -/
def recordOk (r : SourceRecord) : Bool :=
  decide (0 ≤ r.relevanceScore) && decide (r.relevanceScore ≤ 1) &&
    (r.type == "news" || r.type == "industry" || r.type == "academic")

end AINews

namespace AINews

/-! ## Helper lemmas -/

theorem mapGet_mapSet_self (m : List (String × CacheEntry)) (k : String) (v : CacheEntry) :
    mapGet (mapSet m k v) k = some v := by
  induction m with
  | nil => simp [mapGet, mapSet]
  | cons h t ih =>
    obtain ⟨k₁, v₁⟩ := h
    by_cases hk : k₁ = k
    · simp [mapGet, mapSet, hk]
    · simp [mapGet, mapSet, hk, ih]

theorem mapGet_mapSet_ne (m : List (String × CacheEntry)) (k k₂ : String) (v : CacheEntry)
    (h : k ≠ k₂) : mapGet (mapSet m k v) k₂ = mapGet m k₂ := by
  induction m with
  | nil => simp [mapGet, mapSet, h]
  | cons hd t ih =>
    obtain ⟨k₁, v₁⟩ := hd
    by_cases hk : k₁ = k
    · subst hk; simp [mapGet, mapSet, h]
    · simp [mapGet, mapSet, hk, ih]

theorem countMatchesAux_nil (s : List Char) : countMatchesAux [] s 0 = s.length := by
  induction s with
  | nil => simp [countMatchesAux]
  | cons c cs ih => simp [countMatchesAux, patMatchesAt, ih]; omega

/-! ## C1: cache-entry independence -/

/-- C1 counterexample: the pairs ("a_b", "c") and ("a", "b_c") are
distinct (query, timeFrame) pairs, yet after `put` for the first, `get`
for the second returns the very set just stored — the derived keys
`search_a_b_c` collide, so the claimed independence of all distinct pairs
fails. -/
theorem cacheKey_collision_cex :
    (("a_b", "c") ≠ (("a" : String), ("b_c" : String))) ∧
    cacheGet (cachePut [] "a_b" "c" default 0) "a" "b_c" 0 = some (default : SearchData) := by
  exact ⟨by decide, by rfl⟩

/-- C1 (amended): cache entries are independent whenever the derived keys
differ — storing under one key leaves `get` under any other key
unchanged. (Distinct pairs can still collide, as the counterexample
shows, because the key is the plain concatenation
`search_` ++ query ++ `_` ++ timeFrame.) -/
theorem cachePut_independent (c : List (String × CacheEntry)) (q₁ tf₁ q₂ tf₂ : String)
    (d : SearchData) (ts now : Int) (h : cacheKey q₁ tf₁ ≠ cacheKey q₂ tf₂) :
    cacheGet (cachePut c q₁ tf₁ d ts) q₂ tf₂ now = cacheGet c q₂ tf₂ now := by
  simp [cacheGet, cachePut, mapGet_mapSet_ne _ _ _ _ h]

theorem cachePut_independent_witness :
    cacheGet (cachePut [] "a" "b" default 0) "c" "d" 0 = cacheGet [] "c" "d" 0 :=
  cachePut_independent [] "a" "b" "c" "d" default 0 0 (by decide)

/-! ## C2: the empty query -/

/-- C2 counterexample: for the empty query the score of the text "abc" is
1, not 0 — the empty query splits into the single empty token, whose
compiled (empty) regular expression matches at every position. -/
theorem calculateRelevance_empty_query_cex :
    calculateRelevance "abc" "" = some 1 ∧ (1 : ℚ) ≠ 0 := by
  constructor
  · have hs : splitOnSpace (toLowerStr (String.data "")) = [[]] := rfl
    have hc : countMatches [] (toLowerStr (String.data "abc")) = 4 := rfl
    simp only [calculateRelevance]
    simp [hs, traverseOption, parsePattern, hc]
  · norm_num

/-- C2 (amended): an empty query never divides by zero, because
`split(' ')` on the empty string yields one empty token, never zero
tokens; the empty token matches at every position, so the clamped score
is 1 (not 0) for every text. -/
theorem calculateRelevance_empty_query (text : String) :
    calculateRelevance text "" = some 1 := by
  have hs : splitOnSpace (toLowerStr (String.data "")) = [[]] := rfl
  have h1 : countMatches [] (toLowerStr text.data) = (toLowerStr text.data).length + 1 := by
    simp [countMatches, countMatchesAux_nil]
  have h2 : (1 : ℚ) ≤ (((toLowerStr text.data).length + 1 : ℕ) : ℚ) := by
    exact_mod_cast Nat.le_add_left 1 _
  simp only [calculateRelevance]
  simp [hs, traverseOption, parsePattern, h1]

end AINews

namespace AINews

/-! ## Lemmas on the literal regular-expression fragment -/

theorem patMatchesAt_map_lit (w : List Char) :
    ∀ s, patMatchesAt (w.map RTok.lit) s = w.isPrefixOf s := by
  induction w with
  | nil => intro s; cases s <;> simp [patMatchesAt, List.isPrefixOf]
  | cons a as ih =>
    intro s
    cases s with
    | nil => simp [patMatchesAt, List.isPrefixOf]
    | cons c cs =>
      by_cases h : a = c <;> simp [patMatchesAt, List.isPrefixOf, tokMatches, ih, h]

theorem countMatchesAux_map_lit (w : List Char) :
    ∀ s k, countMatchesAux (w.map RTok.lit) s k = literalCountAux w s k := by
  intro s
  induction s with
  | nil => intro k; simp [countMatchesAux, literalCountAux]
  | cons c cs ih =>
    intro k
    cases k with
    | succ k => simp only [countMatchesAux, literalCountAux]; exact ih k
    | zero =>
      simp only [countMatchesAux, literalCountAux, patMatchesAt_map_lit,
        List.length_map, List.isEmpty_eq_true, List.map_eq_nil_iff]
      by_cases hp : w.isPrefixOf (c :: cs)
      · simp only [hp, if_true]
        by_cases hw : w = []
        · subst hw
          simpa using ih 0
        · simp [hw, ih]
      · simp [hp, ih]

theorem countMatches_map_lit (w s : List Char) :
    countMatches (w.map RTok.lit) s = literalCount w s := by
  unfold countMatches literalCount
  rw [countMatchesAux_map_lit]
  congr 1
  cases w <;> simp

theorem parsePattern_of_literal (w : List Char) (h : ∀ c ∈ w, isLiteralChar c = true) :
    parsePattern w = some (w.map RTok.lit) := by
  induction w with
  | nil => rfl
  | cons c cs ih =>
    have hc := h c (by simp)
    have hcs : parsePattern cs = some (cs.map RTok.lit) :=
      ih (fun x hx => h x (by simp [hx]))
    have hc1 : ¬(c = '.') ∧ regexMetaChars.contains c = false := by
      simpa [isLiteralChar] using hc
    have hc2 : c ∉ regexMetaChars := by
      simpa using hc1.2
    have hp : parseTok c = some (RTok.lit c) := by
      simp [parseTok, hc1.1, hc2]
    simp only [parsePattern] at hcs ⊢
    simp [traverseOption, hp, hcs]

theorem traverseOption_eq_map (f : α → Option β) (g : α → β) (l : List α)
    (h : ∀ x ∈ l, f x = some (g x)) : traverseOption f l = some (l.map g) := by
  induction l with
  | nil => rfl
  | cons a as ih =>
    have ha := h a (by simp)
    have has := ih (fun x hx => h x (by simp [hx]))
    simp [traverseOption, ha, has]

end AINews

namespace AINews

/-! ## C4: relevance score totality, bounds and the counting algorithm -/

/-- C4 counterexample: the non-empty query "(" makes `calculateRelevance`
throw for any text — the token is compiled with `new RegExp`, and "(" is
an invalid regular expression (unterminated group), so the score is not
defined for every non-empty query and tokens are not matched as literal
substrings. -/
theorem calculateRelevance_regex_throw_cex :
    calculateRelevance "abc" "(" = none ∧ ("(" : String) ≠ "" :=
  ⟨rfl, by decide⟩

/-- C4 (amended): for every query all of whose tokens — the query is split
on single spaces and lowercased — consist of characters without regular
expression meaning, the score is defined and equals the sum over tokens of
the non-overlapping case-insensitive literal occurrence counts in the
text, divided by the token count and clamped at 1, hence lies in [0, 1].
(For other tokens the compiled pattern may match non-literally or fail to
compile, as the counterexample shows.) -/
theorem calculateRelevance_literal_tokens (text query : String)
    (_hne : query ≠ "")
    (hlit : ∀ w ∈ splitOnSpace (toLowerStr query.data), ∀ c ∈ w, isLiteralChar c = true) :
    calculateRelevance text query =
      some (min
        ((((splitOnSpace (toLowerStr query.data)).map
            (fun w => literalCount w (toLowerStr text.data))).sum : ℚ) /
          ((splitOnSpace (toLowerStr query.data)).length : ℚ)) 1) ∧
    (0 : ℚ) ≤ min
        ((((splitOnSpace (toLowerStr query.data)).map
            (fun w => literalCount w (toLowerStr text.data))).sum : ℚ) /
          ((splitOnSpace (toLowerStr query.data)).length : ℚ)) 1 ∧
    min ((((splitOnSpace (toLowerStr query.data)).map
            (fun w => literalCount w (toLowerStr text.data))).sum : ℚ) /
          ((splitOnSpace (toLowerStr query.data)).length : ℚ)) 1 ≤ 1 := by
  refine ⟨?_, ?_, min_le_right _ _⟩
  · have hw : ∀ w ∈ splitOnSpace (toLowerStr query.data),
        (parsePattern w).map (fun p => countMatches p (toLowerStr text.data))
          = some (literalCount w (toLowerStr text.data)) := by
      intro w hwmem
      rw [parsePattern_of_literal w (hlit w hwmem)]
      simp [countMatches_map_lit]
    have ht := traverseOption_eq_map
      (fun w => (parsePattern w).map (fun p => countMatches p (toLowerStr text.data)))
      (fun w => literalCount w (toLowerStr text.data))
      (splitOnSpace (toLowerStr query.data)) hw
    simp only [calculateRelevance, ht, Option.map_some']
  · exact le_min (div_nonneg (by positivity) (by positivity)) zero_le_one

end AINews

namespace AINews

theorem calculateRelevance_literal_tokens_witness :
    calculateRelevance "the ai age" "ai ai" =
      some (min
        ((((splitOnSpace (toLowerStr (String.data "ai ai"))).map
            (fun w => literalCount w (toLowerStr (String.data "the ai age")))).sum : ℚ) /
          ((splitOnSpace (toLowerStr (String.data "ai ai"))).length : ℚ)) 1) ∧
    (0 : ℚ) ≤ min
        ((((splitOnSpace (toLowerStr (String.data "ai ai"))).map
            (fun w => literalCount w (toLowerStr (String.data "the ai age")))).sum : ℚ) /
          ((splitOnSpace (toLowerStr (String.data "ai ai"))).length : ℚ)) 1 ∧
    min ((((splitOnSpace (toLowerStr (String.data "ai ai"))).map
            (fun w => literalCount w (toLowerStr (String.data "the ai age")))).sum : ℚ) /
          ((splitOnSpace (toLowerStr (String.data "ai ai"))).length : ℚ)) 1 ≤ 1 :=
  calculateRelevance_literal_tokens "the ai age" "ai ai" (by decide) (by decide)

end AINews

namespace AINews

/-! ## C3: the credential-less fallback sequence -/

theorem data_substr_mid (pre q suf : String) : q.data <:+: (pre ++ q ++ suf).data := by
  rw [String.data_append, String.data_append]
  exact List.infix_append _ _ _

theorem data_substr_left (q suf : String) : q.data <:+: (q ++ suf).data := by
  rw [String.data_append]
  exact ⟨[], suf.data, by simp⟩

/-- C3 counterexample: the second record of the fallback sequence the
credential-less news adapter returns has type "industry", not "news" —
so not every fallback record has type `news`. -/
theorem getMockNewsData_industry_cex :
    ((searchNewsAPI false 0 "ai" none)[1]?).map SourceRecord.type = some "industry" ∧
    ("industry" : String) ≠ "news" :=
  ⟨rfl, by decide⟩

/-- C3 (amended): with no credential configured the news adapter returns,
for every query and regardless of the response parameter, the fixed
fallback sequence of six fabricated records; every record carries type
"news" or type "industry" (not all "news"), and every title interpolates
the query string as a substring. -/
theorem searchNewsAPI_no_credential (now : Int) (q : String) (o : Option (List Article)) :
    searchNewsAPI false now q o = getMockNewsData now q ∧
    (getMockNewsData now q).length = 6 ∧
    (getMockNewsData now q).all
      (fun r => (r.type == "news" || r.type == "industry") &&
        (match r.title with
         | some t => decide (q.data <:+: t.data)
         | none => false)) = true := by
  refine ⟨rfl, rfl, ?_⟩
  simp only [getMockNewsData, List.all_cons, List.all_nil, Bool.and_true, Bool.and_eq_true]
  refine ⟨⟨?_, ?_⟩, ⟨?_, ?_⟩, ⟨?_, ?_⟩, ⟨?_, ?_⟩, ⟨?_, ?_⟩, ⟨?_, ?_⟩⟩
  · decide
  · exact decide_eq_true (data_substr_mid "Breakthrough " q " capabilities revolutionize enterprise operations")
  · decide
  · exact decide_eq_true (data_substr_left q " market dynamics: Investment surge and competitive repositioning")
  · decide
  · exact decide_eq_true (data_substr_mid "Regulatory frameworks evolve to address " q " implementation challenges")
  · decide
  · exact decide_eq_true (data_substr_mid "Technical architecture innovations enable scalable " q " deployment")
  · decide
  · exact decide_eq_true (data_substr_mid "Global adoption patterns reveal regional " q " implementation strategies")
  · decide
  · exact decide_eq_true (data_substr_mid "Industry transformation accelerates through " q " integration")

end AINews

namespace AINews

/-! ## C5: TTL expiry -/

/-- C5: an entry whose age has reached the TTL (`cacheExpiry`, 30 minutes)
is never returned — the freshness test of line 86 is a strict
`now - timestamp < cacheExpiry` — and the subsequent search takes the
recomputation branch, running the adapter fan-out again. -/
theorem cache_ttl_expiry (cache : List (String × CacheEntry)) (q tf : String) (now : Int)
    (e : CacheEntry) (hk : Bool) (na : Option (List Article)) (aa : Option (List ArxivEntry))
    (hfound : mapGet cache (cacheKey q tf) = some e)
    (hstale : cacheExpiry ≤ now - e.timestamp) :
    cacheGet cache q tf now = none ∧
    (searchWebSources cache now q tf hk na aa).2.2 = true := by
  have hget : cacheGet cache q tf now = none := by
    simp [cacheGet, hfound, not_lt.mpr hstale]
  refine ⟨hget, ?_⟩
  simp only [searchWebSources, hget]
  cases hsc : searchCompute q tf now hk
      (Except.ok (searchNewsAPI hk now q na)) (Except.ok (searchArxiv q aa)) <;>
    simp [hsc]

theorem cache_ttl_expiry_witness :
    cacheGet staleCache "a" "b" 1800000 = none ∧
    (searchWebSources staleCache 1800000 "a" "b" false none none).2.2 = true :=
  cache_ttl_expiry staleCache "a" "b" 1800000 ⟨default, 0⟩ false none none rfl (by decide)

/-! ## C6: idempotence within the TTL window -/

/-- C6: a `search(q, tf)` that misses the cache and succeeds at clock
`now₁` stores its payload, and any second `search(q, tf)` within the TTL
window — whatever the credential flag or the adapter responses meanwhile —
returns the bit-identical payload (hence the first call's timestamp),
leaves the cache unchanged and runs no adapter fan-out. -/
theorem search_idempotent_within_ttl (cache : List (String × CacheEntry))
    (q tf : String) (now₁ now₂ : Int) (hk : Bool)
    (na : Option (List Article)) (aa : Option (List ArxivEntry))
    (hk₂ : Bool) (na₂ : Option (List Article)) (aa₂ : Option (List ArxivEntry))
    (d : SearchData)
    (hmiss : cacheGet cache q tf now₁ = none)
    (hfirst : (searchWebSources cache now₁ q tf hk na aa).1 = some d)
    (hfresh : now₂ - now₁ < cacheExpiry) :
    searchWebSources ((searchWebSources cache now₁ q tf hk na aa).2.1) now₂ q tf hk₂ na₂ aa₂
      = (some d, (searchWebSources cache now₁ q tf hk na aa).2.1, false) := by
  have h1 : searchWebSources cache now₁ q tf hk na aa
      = (some d, cachePut cache q tf d now₁, true) := by
    simp only [searchWebSources, hmiss] at hfirst ⊢
    cases hsc : searchCompute q tf now₁ hk
        (Except.ok (searchNewsAPI hk now₁ q na)) (Except.ok (searchArxiv q aa)) with
    | none => rw [hsc] at hfirst; simp at hfirst
    | some d₀ =>
      rw [hsc] at hfirst
      simp only [Option.some.injEq] at hfirst
      subst hfirst
      rfl
  rw [h1]
  have h2 : cacheGet (cachePut cache q tf d now₁) q tf now₂ = some d := by
    simp [cacheGet, cachePut, mapGet_mapSet_self, hfresh]
  simp only [searchWebSources, h2]

theorem search_idempotent_within_ttl_witness :
    searchWebSources ((searchWebSources [] 0 "ai" "week" false none none).2.1) 5 "ai" "week"
        false none none
      = (some demoData, (searchWebSources [] 0 "ai" "week" false none none).2.1, false) :=
  search_idempotent_within_ttl [] "ai" "week" 0 5 false none none false none none demoData
    rfl rfl (by decide)

end AINews

namespace AINews

/-! ## C7: partial failure of the academic adapter -/

theorem newsSomeLive_defined (l : List SourceRecord) (h : ∀ r ∈ l, r.url ≠ none) :
    (newsSomeLive l).isSome = true := by
  induction l with
  | nil => simp [newsSomeLive]
  | cons r rs ih =>
    cases hu : r.url with
    | none => exact absurd hu (h r (by simp))
    | some u =>
      have hrs := ih (fun x hx => h x (by simp [hx]))
      simp only [newsSomeLive, hu]
      split <;> simp [hrs]

/-- C7 counterexample: a run in which the academic adapter rejects and the
news adapter succeeds — with one live article whose `url` is `null` — does
not succeed: line 105 reads `url.includes` of `null`, the TypeError
reaches the catch, and the whole search throws, so search does not always
succeed when only the academic adapter fails. -/
theorem search_partial_failure_cex :
    searchCompute "ai" "week" 0 true
      (Except.ok (searchNewsAPI true 0 "ai"
        (some [⟨some "Tesla story", some "desc", none, some "2024", some "X"⟩])))
      (Except.error ()) = none := rfl

/-- C7 (amended): whenever the academic outcome is a rejection and the
news outcome is fulfilled with records all of which carry a defined url —
true of the fallback sequence and of well-formed live articles — the
aggregation succeeds and returns exactly the news records, with
`totalFound` their number. (A news record with a `null` url instead makes
the whole search throw, as the counterexample shows.) -/
theorem search_partial_failure (q tf : String) (now : Int) (hk : Bool)
    (newsRecs : List SourceRecord)
    (hurl : ∀ r ∈ newsRecs, r.url ≠ none) :
    (searchCompute q tf now hk (Except.ok newsRecs) (Except.error ())).map SearchData.results
      = some newsRecs ∧
    (searchCompute q tf now hk (Except.ok newsRecs) (Except.error ())).map SearchData.totalFound
      = some newsRecs.length := by
  have hpr : ([Except.ok newsRecs, (Except.error () : Except Unit (List SourceRecord))].filterMap
      Except.toOption).flatten = newsRecs := by
    simp [Except.toOption]
  simp only [searchCompute, hpr]
  have hdef : (if hk then
      (if 0 < (newsRecs.filter (fun r => r.type == "news")).length then
        newsSomeLive (newsRecs.filter (fun r => r.type == "news"))
      else some false)
    else some false).isSome = true := by
    cases hk with
    | false => simp
    | true =>
      by_cases hl : 0 < (newsRecs.filter (fun r => r.type == "news")).length
      · simp only [if_true, hl, if_pos]
        exact newsSomeLive_defined _ (fun r hr => hurl r (List.mem_of_mem_filter hr))
      · simp [hl]
  obtain ⟨b, hb⟩ := Option.isSome_iff_exists.mp hdef
  rw [hb]
  simp

theorem search_partial_failure_witness :
    (searchCompute "ai" "week" 0 false
      (Except.ok [⟨some "t", some "d", some "https://x.com/a", some "p", some "s", "news", 0⟩])
      (Except.error ())).map SearchData.results
      = some [⟨some "t", some "d", some "https://x.com/a", some "p", some "s", "news", 0⟩] ∧
    (searchCompute "ai" "week" 0 false
      (Except.ok [⟨some "t", some "d", some "https://x.com/a", some "p", some "s", "news", 0⟩])
      (Except.error ())).map SearchData.totalFound
      = some ([(⟨some "t", some "d", some "https://x.com/a", some "p", some "s", "news", 0⟩ :
          SourceRecord)].length) :=
  search_partial_failure "ai" "week" 0 false
    [⟨some "t", some "d", some "https://x.com/a", some "p", some "s", "news", 0⟩]
    (by decide)

end AINews

namespace AINews

/-! ## C9: the per-record invariant of aggregator output -/

theorem calculateRelevance_bounds (t q : String) (r : ℚ)
    (h : calculateRelevance t q = some r) : 0 ≤ r ∧ r ≤ 1 := by
  simp only [calculateRelevance, Option.map_eq_some'] at h
  obtain ⟨counts, _, hr⟩ := h
  rw [← hr]
  exact ⟨le_min (div_nonneg (by positivity) (by positivity)) zero_le_one, min_le_right _ _⟩

theorem mkNewsRecord_ok (q : String) (a : Article) (r : SourceRecord)
    (h : mkNewsRecord q a = some r) : recordOk r = true := by
  simp only [mkNewsRecord, Option.map_eq_some'] at h
  obtain ⟨sc, hsc, hr⟩ := h
  obtain ⟨h0, h1⟩ := calculateRelevance_bounds _ _ _ hsc
  rw [← hr]
  simp [recordOk, h0, h1]

theorem mkArxivRecord_ok (q : String) (e : ArxivEntry) (r : SourceRecord)
    (h : mkArxivRecord q e = some r) : recordOk r = true := by
  simp only [mkArxivRecord, Option.map_eq_some'] at h
  obtain ⟨sc, hsc, hr⟩ := h
  obtain ⟨h0, h1⟩ := calculateRelevance_bounds _ _ _ hsc
  rw [← hr]
  simp [recordOk, h0, h1]

theorem getMockNewsData_ok (now : Int) (q : String) (r : SourceRecord)
    (h : r ∈ getMockNewsData now q) : recordOk r = true := by
  simp only [getMockNewsData, List.mem_cons, List.not_mem_nil, or_false] at h
  rcases h with h | h | h | h | h | h <;> subst h <;> simp [recordOk] <;> norm_num

theorem traverseOption_mem (f : α → Option β) (l : List α) (l₂ : List β)
    (h : traverseOption f l = some l₂) :
    ∀ r ∈ l₂, ∃ x ∈ l, f x = some r := by
  induction l generalizing l₂ with
  | nil =>
    simp only [traverseOption, Option.some.injEq] at h
    subst h
    simp
  | cons a as ih =>
    simp only [traverseOption] at h
    cases hfa : f a with
    | none => rw [hfa] at h; simp at h
    | some b =>
      rw [hfa] at h
      simp only [Option.map_eq_some'] at h
      obtain ⟨bs, hbs, hcons⟩ := h
      subst hcons
      intro r hr
      rcases List.mem_cons.mp hr with hrb | hrbs
      · exact ⟨a, by simp, by rw [hfa, hrb]⟩
      · obtain ⟨x, hx, hfx⟩ := ih bs hbs r hrbs
        exact ⟨x, by simp [hx], hfx⟩

theorem searchNewsAPI_ok (hk : Bool) (now : Int) (q : String)
    (na : Option (List Article)) :
    ∀ r ∈ searchNewsAPI hk now q na, recordOk r = true := by
  intro r hr
  unfold searchNewsAPI at hr
  by_cases hkb : hk
  · simp only [hkb, Bool.not_true, Bool.false_eq_true, if_false] at hr
    cases hb : newsApiBody q na with
    | none => rw [hb] at hr; exact getMockNewsData_ok now q r hr
    | some recs =>
      rw [hb] at hr
      simp only [newsApiBody, Option.bind_eq_some] at hb
      obtain ⟨arts, _, htr⟩ := hb
      obtain ⟨a, _, ha⟩ := traverseOption_mem _ _ _ htr r hr
      exact mkNewsRecord_ok q a r ha
  · simp only [Bool.not_eq_true] at hkb
    subst hkb
    simp only [Bool.not_false, if_true] at hr
    exact getMockNewsData_ok now q r hr

theorem searchArxiv_ok (q : String) (aa : Option (List ArxivEntry)) :
    ∀ r ∈ searchArxiv q aa, recordOk r = true := by
  intro r hr
  unfold searchArxiv at hr
  cases hb : arxivBody q aa with
  | none => rw [hb] at hr; simp at hr
  | some recs =>
    rw [hb] at hr
    simp only [Option.getD_some] at hr
    simp only [arxivBody, Option.bind_eq_some] at hb
    obtain ⟨es, _, htr⟩ := hb
    obtain ⟨e, _, he⟩ := traverseOption_mem _ _ _ htr r hr
    exact mkArxivRecord_ok q e r he

theorem searchCompute_inv (q tf : String) (now : Int) (hk : Bool)
    (l₁ l₂ : List SourceRecord) (d : SearchData)
    (h : searchCompute q tf now hk (Except.ok l₁) (Except.ok l₂) = some d) :
    d.results = l₁ ++ l₂ ∧ d.totalFound = (l₁ ++ l₂).length := by
  have hpr : ([Except.ok l₁, (Except.ok l₂ : Except Unit (List SourceRecord))].filterMap
      Except.toOption).flatten = l₁ ++ l₂ := by
    simp [Except.toOption]
  simp only [searchCompute, hpr, Option.map_eq_some'] at h
  obtain ⟨b, _, hd⟩ := h
  rw [← hd]
  exact ⟨rfl, rfl⟩

/-- C9 counterexample: with a credential configured and the news API
returning one article whose `title` is `null`, the aggregator returns a
result set whose single record has a `null` title — the code copies the
article fields verbatim, so the claimed non-null `title` invariant fails
for live news records. -/
theorem aggregator_null_title_cex :
    (searchCompute "ai" "week" 0 true
      (Except.ok (searchNewsAPI true 0 "ai"
        (some [⟨none, some "desc", some "https://x.com/a", some "2024", some "X"⟩])))
      (Except.ok (searchArxiv "ai" none))).map (fun d => d.results.map SourceRecord.title)
      = some [none] := rfl

/-- C9 (amended): every payload the aggregation step builds satisfies
`totalFound = length of results`, and every record in it has a type tag
from the adapters ("news", "industry" or "academic") and a defined
`relevanceScore` within [0, 1]. (The `title`/`url` fields of live news
records are copied verbatim from the upstream article and may be `null`,
as the counterexample shows; fallback and academic records always carry
defined ones.) -/
theorem aggregator_record_invariant (q tf : String) (now : Int) (hk : Bool)
    (na : Option (List Article)) (aa : Option (List ArxivEntry)) (d : SearchData)
    (h : searchCompute q tf now hk (Except.ok (searchNewsAPI hk now q na))
        (Except.ok (searchArxiv q aa)) = some d) :
    d.totalFound = d.results.length ∧ d.results.all recordOk = true := by
  obtain ⟨hres, htot⟩ := searchCompute_inv _ _ _ _ _ _ _ h
  refine ⟨by rw [hres, htot], ?_⟩
  rw [hres, List.all_append]
  have h₁ : (searchNewsAPI hk now q na).all recordOk = true :=
    List.all_eq_true.mpr (searchNewsAPI_ok hk now q na)
  have h₂ : (searchArxiv q aa).all recordOk = true :=
    List.all_eq_true.mpr (searchArxiv_ok q aa)
  rw [h₁, h₂]
  rfl

theorem aggregator_record_invariant_witness :
    c9data.totalFound = c9data.results.length ∧ c9data.results.all recordOk = true :=
  aggregator_record_invariant "ai" "week" 0 true (some [c9article]) none c9data rfl

end AINews

namespace AINews

/-! ## C8: adapters absorb every internal failure -/

/-- C8: the adapters are total functions — no exception escapes them — and
whenever the body of the news adapter's try block fails (network error,
malformed body, or a throwing score computation) the adapter yields the
fixed fallback sequence, while any failure of the academic adapter's body
yields the empty sequence. -/
theorem adapters_absorb_failures (now : Int) (q : String) (hk : Bool)
    (na : Option (List Article)) (aa : Option (List ArxivEntry))
    (hN : newsApiBody q na = none) (hA : arxivBody q aa = none) :
    searchNewsAPI hk now q na = getMockNewsData now q ∧ searchArxiv q aa = [] := by
  constructor
  · unfold searchNewsAPI
    cases hk <;> simp [hN]
  · simp [searchArxiv, hA]

theorem adapters_absorb_failures_witness :
    searchNewsAPI true 0 "ai" none = getMockNewsData 0 "ai" ∧ searchArxiv "ai" none = [] :=
  adapters_absorb_failures 0 "ai" true none none rfl rfl

/-! ## C10: the academic description truncation -/

/-- C10: every record the academic adapter builds has
`description = summary.substring(0, 200) + '...'` for the trimmed summary:
the kept prefix has exactly `min 200 (length summary)` characters, the
three-dot ellipsis is appended unconditionally (even when the summary is
shorter than 200 characters), so the description always ends in "..." and
has length at most 203. -/
theorem arxiv_description_truncation (q : String) (e : ArxivEntry) (r : SourceRecord)
    (h : mkArxivRecord q e = some r) :
    r.description = some (jsSubstring (jsTrim e.summary) 200 ++ "...") ∧
    (jsSubstring (jsTrim e.summary) 200).length = min 200 (jsTrim e.summary).length ∧
    (jsSubstring (jsTrim e.summary) 200 ++ "...").length ≤ 203 ∧
    "...".data <:+ (jsSubstring (jsTrim e.summary) 200 ++ "...").data := by
  have hlen : (jsSubstring (jsTrim e.summary) 200).length = min 200 (jsTrim e.summary).length := by
    show ((jsTrim e.summary).data.take 200).length = min 200 (jsTrim e.summary).data.length
    exact List.length_take _ _
  refine ⟨?_, hlen, ?_, ?_⟩
  · simp only [mkArxivRecord, Option.map_eq_some'] at h
    obtain ⟨sc, _, hr⟩ := h
    rw [← hr]
  · rw [String.length_append, hlen]
    have h200 : min 200 (jsTrim e.summary).length ≤ 200 := min_le_left _ _
    have h3 : ("..." : String).length = 3 := rfl
    omega
  · rw [String.data_append]
    exact List.suffix_append _ _

theorem arxiv_description_truncation_witness :
    c10rec.description = some (jsSubstring (jsTrim c10entry.summary) 200 ++ "...") ∧
    (jsSubstring (jsTrim c10entry.summary) 200).length = min 200 (jsTrim c10entry.summary).length ∧
    (jsSubstring (jsTrim c10entry.summary) 200 ++ "...").length ≤ 203 ∧
    "...".data <:+ (jsSubstring (jsTrim c10entry.summary) 200 ++ "...").data :=
  arxiv_description_truncation "ai" c10entry c10rec rfl

end AINews
